import Mathlib

/-!
Verification of the MCP fraud-detection server (event ingestion, rule-based
risk scoring, alert consolidation, and the query endpoints).

The Python source is shallowly embedded:
* instants are integers (seconds); a source `datetime` value `d` is the
  integer number of seconds it denotes, and `timedelta(minutes=m)` is `m * 60`;
* an incoming event's ISO-8601 timestamp string is embedded as
  `Option Int`: `some t` when `datetime.fromisoformat` succeeds and yields
  instant `t`, `none` when it raises;
* float risk scores are embedded as rationals (all constants in the source are
  decimal literals);
* a SQLAlchemy table is a list of rows in insertion order; `query(...).first()`
  without `order_by` is `List.find?`, and `order_by(timestamp.desc()).first()`
  is the row with the greatest timestamp;
* the external BAML assessor is an oracle parameter: `_baml_analysis` catches
  every exception and returns `None` on unavailability, error, empty result or
  timeout, so its outcome is `Option FraudAssessment`.
-/

namespace MCP

/-- Configuration (config.py `Settings`): only the fields the verified
routines read. -/
structure Settings where
  FRAUD_THRESHOLD : ℚ
  ALERT_CONSOLIDATION_WINDOW_MINUTES : Int
  MAX_EVENTS_PER_ALERT : Nat
deriving DecidableEq

/-- The default configuration values from config.py. -/
def defaultSettings : Settings :=
  { FRAUD_THRESHOLD := (7:ℚ)/10
    ALERT_CONSOLIDATION_WINDOW_MINUTES := 5
    MAX_EVENTS_PER_ALERT := 10 }

/-- A stored authentication event row (models.py `MCPAuthEvent`). -/
structure MCPAuthEvent where
  id : String
  user_id : Int
  username : String
  event_type : String
  ip_address : Option String
  user_agent : Option String
  timestamp : Int
  risk_score : Option ℚ
  fraud_reason : Option String
  analyzed_at : Option Int
deriving DecidableEq

/-- An incoming event (schemas.py `AuthEventIn`).  The `timestamp` field of
the source is an ISO-8601 string; it is embedded as the instant it parses to
(`none` when `datetime.fromisoformat` raises). -/
structure AuthEventIn where
  user_id : Int
  username : String
  event_type : String
  ip_address : Option String
  user_agent : Option String
  timestamp : Option Int
deriving DecidableEq

/-- Result of fraud analysis (fraud_detector.py `FraudAssessment`). -/
structure FraudAssessment where
  risk_score : ℚ
  email_notification : Bool
  reason : String
  confidence : ℚ
deriving DecidableEq

/-- fraud_detector.py `_count_recent_events`: count of rows of the given
user and type with `since <= timestamp < before`. -/
def count_recent_events (db : List MCPAuthEvent) (user_id : Int)
    (event_type : String) (since before : Int) : Nat :=
  (db.filter (fun e =>
    e.user_id == user_id && e.event_type == event_type &&
    decide (since ≤ e.timestamp) && decide (e.timestamp < before))).length

/-- `query(...).order_by(timestamp.desc()).first()`: the row with the
greatest timestamp among the matches (the earliest-inserted one on ties). -/
def maxByTimestamp : List MCPAuthEvent → Option MCPAuthEvent
  | [] => none
  | e :: es =>
    match maxByTimestamp es with
    | none => some e
    | some m => if e.timestamp < m.timestamp then some m else some e

/-- fraud_detector.py `_check_ip_change`: the most recent `login_success`
row strictly before `before` whose `ip_address` is non-null; Python
truthiness makes a null or empty stored address, or no such row, report no
change. -/
def check_ip_change (db : List MCPAuthEvent) (user_id : Int)
    (current_ip : String) (before : Int) : Bool :=
  match maxByTimestamp (db.filter (fun e =>
      e.user_id == user_id && e.event_type == "login_success" &&
      decide (e.timestamp < before) && e.ip_address.isSome)) with
  | some last_success =>
    match last_success.ip_address with
    | some ip => if ip == "" then false else ip != current_ip
    | none => false
  | none => false

/-- fraud_detector.py `_check_user_agent_change`, same shape as
`check_ip_change` over the `user_agent` column. -/
def check_user_agent_change (db : List MCPAuthEvent) (user_id : Int)
    (current_ua : String) (before : Int) : Bool :=
  match maxByTimestamp (db.filter (fun e =>
      e.user_id == user_id && e.event_type == "login_success" &&
      decide (e.timestamp < before) && e.user_agent.isSome)) with
  | some last_success =>
    match last_success.user_agent with
    | some ua => if ua == "" then false else ua != current_ua
    | none => false
  | none => false

/-- Rule 1 of `_rule_based_analysis`: tiered addition for the 5-minute
failed-login count, with its reason text. -/
def rule_failed_logins (n : Nat) : ℚ × List String :=
  if n ≥ 11 then
    ((7:ℚ)/10, ["Severe brute force attack detected (" ++ toString n ++ " failed logins in 5 minutes)"])
  else if n ≥ 6 then
    ((5:ℚ)/10, ["High number of failed login attempts (" ++ toString n ++ " in 5 minutes)"])
  else if n ≥ 3 then
    ((3:ℚ)/10, ["Multiple failed login attempts (" ++ toString n ++ " in 5 minutes)"])
  else (0, [])

/-- Rule 2 of `_rule_based_analysis`: tiered addition for the 5-minute
failed-2FA count. -/
def rule_failed_2fa (n : Nat) : ℚ × List String :=
  if n ≥ 11 then
    ((8:ℚ)/10, ["Severe 2FA brute force attack (" ++ toString n ++ " failed attempts in 5 minutes)"])
  else if n ≥ 6 then
    ((6:ℚ)/10, ["High number of failed 2FA attempts (" ++ toString n ++ " in 5 minutes)"])
  else if n ≥ 3 then
    ((4:ℚ)/10, ["Multiple failed 2FA attempts (" ++ toString n ++ " in 5 minutes)"])
  else (0, [])

/-- Rule 3 of `_rule_based_analysis`: `if event.ip_address:` (truthy, i.e.
non-null and non-empty) and the IP changed versus the last successful
login. -/
def rule_ip_change (db : List MCPAuthEvent) (user_id : Int)
    (ip : Option String) (event_time : Int) : ℚ × List String :=
  match ip with
  | some s =>
    if s != "" && check_ip_change db user_id s event_time then
      ((2:ℚ)/10, ["IP address changed from previous login"])
    else (0, [])
  | none => (0, [])

/-- Rule 4 of `_rule_based_analysis`: user-agent change versus the last
successful login. -/
def rule_ua_change (db : List MCPAuthEvent) (user_id : Int)
    (ua : Option String) (event_time : Int) : ℚ × List String :=
  match ua with
  | some s =>
    if s != "" && check_user_agent_change db user_id s event_time then
      ((1:ℚ)/10, ["User agent changed from previous login"])
    else (0, [])
  | none => (0, [])

/-- The body of `_rule_based_analysis` after the timestamp has been parsed
to `event_time`: sum the four rule additions, cap at 1.0, set the
notification flag by `risk_score >= threshold`, and join the triggered
reasons. -/
def rule_based_core (threshold : ℚ) (event : AuthEventIn)
    (db : List MCPAuthEvent) (event_time : Int) : FraudAssessment :=
  let r1 := rule_failed_logins
    (count_recent_events db event.user_id "login_failure" (event_time - 300) event_time)
  let r2 := rule_failed_2fa
    (count_recent_events db event.user_id "2fa_failure" (event_time - 300) event_time)
  let r3 := rule_ip_change db event.user_id event.ip_address event_time
  let r4 := rule_ua_change db event.user_id event.user_agent event_time
  let risk := min (r1.1 + r2.1 + r3.1 + r4.1) 1
  let reasons := r1.2 ++ r2.2 ++ r3.2 ++ r4.2
  { risk_score := risk
    email_notification := decide (risk ≥ threshold)
    reason :=
      if reasons.isEmpty then "Normal authentication pattern detected"
      else String.intercalate "; " reasons
    confidence := 1 }

/-- fraud_detector.py `_rule_based_analysis`: parse the event timestamp
(`none` models `fromisoformat` raising) and run the rule engine. -/
def rule_based_analysis (threshold : ℚ) (event : AuthEventIn)
    (db : List MCPAuthEvent) : Option FraudAssessment :=
  match event.timestamp with
  | some t => some (rule_based_core threshold event db t)
  | none => none

/-- The fixed assessment `analyze_event` returns when an exception escapes
both detection paths. -/
def defaultAssessment : FraudAssessment :=
  { risk_score := 0
    email_notification := false
    reason := "Analysis failed - defaulting to no risk"
    confidence := 0 }

/-- The detector state (fraud_detector.py `FraudDetector.__init__`):
threshold, whether BAML is enabled, and whether the client reports itself
available. -/
structure DetectorCfg where
  fraud_threshold : ℚ
  baml_enabled : Bool
  baml_available : Bool
deriving DecidableEq

/-- fraud_detector.py `analyze_event`.  `baml_outcome` is the oracle for
`_baml_analysis` (which catches every exception internally): `none` when the
assessor errors, returns nothing, or times out.  If the BAML path yields no
result the rule-based path runs; if that in turn raises (unparseable
timestamp), the outer handler returns `defaultAssessment`. -/
def analyze_event (cfg : DetectorCfg) (baml_outcome : Option FraudAssessment)
    (event : AuthEventIn) (db : List MCPAuthEvent) : FraudAssessment :=
  let via_baml : Option FraudAssessment :=
    if cfg.baml_enabled && cfg.baml_available then baml_outcome else none
  match via_baml with
  | some a => a
  | none =>
    match rule_based_analysis cfg.fraud_threshold event db with
    | some a => a
    | none => defaultAssessment

/-- A stored alert row (models.py `MCPAlert`). -/
structure MCPAlert where
  id : String
  user_id : Int
  username : String
  event_ids : List String
  risk_score : ℚ
  reason : String
  status : String
  created_at : Int
  updated_at : Int
deriving DecidableEq

/-- `n` starts `h` (character-list prefix test for the substring search). -/
def seqStartsWith : List Char → List Char → Bool
  | [], _ => true
  | _ :: _, [] => false
  | a :: n, b :: h => a == b && seqStartsWith n h

/-- `needle` occurs somewhere in the haystack (Python `needle in hay`). -/
def seqOccurs (needle : List Char) : List Char → Bool
  | [] => seqStartsWith needle []
  | b :: h => seqStartsWith needle (b :: h) || seqOccurs needle h

/-- Python substring membership `sub in hay` on strings. -/
def strContains (hay sub : String) : Bool :=
  seqOccurs sub.data hay.data

/-- The alert row `create_alert` inserts on its create path. -/
def newAlert (now : Int) (new_id : String) (user_id : Int)
    (username event_id : String) (risk_score : ℚ) (reason : String) : MCPAlert :=
  { id := new_id
    user_id := user_id
    username := username
    event_ids := [event_id]
    risk_score := risk_score
    reason := reason
    status := "open"
    created_at := now
    updated_at := now }

/-- The lookup filter of routes/alerts.py `create_alert`: an open alert of
the user whose creation instant lies inside the consolidation window
measured back from `now`. -/
def openAlertInWindow (s : Settings) (now user_id : Int) (a : MCPAlert) : Bool :=
  a.user_id == user_id && a.status == "open" &&
    decide (now - s.ALERT_CONSOLIDATION_WINDOW_MINUTES * 60 ≤ a.created_at)

/-- routes/alerts.py `create_alert`.  `now` is `datetime.utcnow()` and
`new_id` the uuid generated for the create path.  The first open alert of
the user created inside the consolidation window is looked up; if one is
found and the event id is new and the attachment cap not reached, the event
is appended to it (raising the risk score to the maximum and appending a
novel reason) and `(alert_id, True)` returned; on every other path a fresh
alert is inserted and `(new_id, False)` returned. -/
def create_alert (s : Settings) (now : Int) (new_id : String)
    (alerts : List MCPAlert) (user_id : Int) (username event_id : String)
    (risk_score : ℚ) (reason : String) : List MCPAlert × String × Bool :=
  match alerts.find? (openAlertInWindow s now user_id) with
  | some existing_alert =>
    if !(existing_alert.event_ids.contains event_id) &&
        existing_alert.event_ids.length < s.MAX_EVENTS_PER_ALERT then
      let updated : MCPAlert :=
        { existing_alert with
          event_ids := existing_alert.event_ids ++ [event_id]
          risk_score := max existing_alert.risk_score risk_score
          reason :=
            if strContains existing_alert.reason reason then existing_alert.reason
            else existing_alert.reason ++ "; " ++ reason
          updated_at := now }
      (alerts.map (fun a => if a.id == existing_alert.id then updated else a),
       existing_alert.id, true)
    else
      (alerts ++ [newAlert now new_id user_id username event_id risk_score reason],
       new_id, false)
  | none =>
    (alerts ++ [newAlert now new_id user_id username event_id risk_score reason],
     new_id, false)

/-- The durable state the server mutates: the event table and the alert
table. -/
structure ServerState where
  events : List MCPAuthEvent
  alerts : List MCPAlert
deriving DecidableEq

/-- The body of routes/ingest.py `EventIngestResponse`. -/
structure EventIngestResponse where
  message : String
  event_id : String
  status : String
deriving DecidableEq

/-- routes/ingest.py `ingest_event`.  A `none` timestamp (unparseable ISO
string) is the HTTP 422 path, modelled as `Except.error`.  Otherwise the
event row is durably appended with null assessment fields, then the fraud
analysis and assessment-attach step runs inside its own handler:
`attach_ok = false` models an exception anywhere in that step, which is
logged and swallowed, leaving the appended row unassessed.  The accepted
response is returned in either case.  The alert table is never touched. -/
def ingest_event (cfg : DetectorCfg) (baml_outcome : Option FraudAssessment)
    (event : AuthEventIn) (new_id : String) (now : Int) (attach_ok : Bool)
    (st : ServerState) : Except String EventIngestResponse × ServerState :=
  match event.timestamp with
  | none => (Except.error "Invalid timestamp format", st)
  | some t =>
    let stored : MCPAuthEvent :=
      { id := new_id
        user_id := event.user_id
        username := event.username
        event_type := event.event_type
        ip_address := event.ip_address
        user_agent := event.user_agent
        timestamp := t
        risk_score := none
        fraud_reason := none
        analyzed_at := none }
    let events1 := st.events ++ [stored]
    let events2 :=
      if attach_ok then
        let a := analyze_event cfg baml_outcome event events1
        events1.map (fun e =>
          if e.id == new_id then
            { e with
              risk_score := some a.risk_score
              fraud_reason := some a.reason
              analyzed_at := some now }
          else e)
      else events1
    (Except.ok
      { message := "Event accepted for processing"
        event_id := new_id
        status := "accepted" },
     { st with events := events2 })

/-- routes/events.py `get_events`: the conditionally accumulated filter
list (`filters.append(...)` for each supplied parameter). -/
def eventFilters (user_id : Option Int) (event_type : Option String)
    (start_date end_date : Option Int) : List (MCPAuthEvent → Bool) :=
  (match user_id with
   | some u => [fun e => e.user_id == u]
   | none => []) ++
  (match event_type with
   | some ty => [fun e => e.event_type == ty]
   | none => []) ++
  (match start_date with
   | some s => [fun e => decide (s ≤ e.timestamp)]
   | none => []) ++
  (match end_date with
   | some en => [fun e => decide (e.timestamp ≤ en)]
   | none => [])

/-- routes/events.py `get_events`: a stored row passes when every
accumulated filter holds (`query.filter(and_(*filters))`). -/
def eventMatches (user_id : Option Int) (event_type : Option String)
    (start_date end_date : Option Int) (e : MCPAuthEvent) : Bool :=
  (eventFilters user_id event_type start_date end_date).all (fun f => f e)

/-- routes/events.py `get_events`: the sub-table of matching rows. -/
def get_events_filtered (db : List MCPAuthEvent) (user_id : Option Int)
    (event_type : Option String) (start_date end_date : Option Int) :
    List MCPAuthEvent :=
  db.filter (eventMatches user_id event_type start_date end_date)

/-- routes/events.py `get_events`: `total = query.count()` before
pagination. -/
def get_events_total (db : List MCPAuthEvent) (user_id : Option Int)
    (event_type : Option String) (start_date end_date : Option Int) : Nat :=
  (get_events_filtered db user_id event_type start_date end_date).length

/-- routes/events.py `get_events`: the returned page — matching rows ordered
by timestamp descending, then `LIMIT limit OFFSET offset`. -/
def get_events_page (db : List MCPAuthEvent) (user_id : Option Int)
    (event_type : Option String) (start_date end_date : Option Int)
    (limit offset : Nat) : List MCPAuthEvent :=
  (((get_events_filtered db user_id event_type start_date end_date).mergeSort
      (fun a b => b.timestamp ≤ a.timestamp)).drop offset).take limit

/-- routes/fraud_assessments.py `get_fraud_assessments`: the
`email_notification` value placed in each `FraudAssessmentOut`
(`event.risk_score > settings.FRAUD_THRESHOLD if event.risk_score else
False` — Python truthiness, then a strict comparison). -/
def assessment_out_email_notification (threshold : ℚ) (risk_score : Option ℚ) : Bool :=
  match risk_score with
  | some r => if r == 0 then false else decide (r > threshold)
  | none => false

/-! Concrete scenario inputs used by the claim theorems below. -/

/-- A `login_failure` row for subject 1, `i` seconds after instant 300. -/
def failRow (i : Nat) : MCPAuthEvent :=
  { id := "f" ++ toString i
    user_id := 1
    username := "u"
    event_type := "login_failure"
    ip_address := none
    user_agent := none
    timestamp := 300 + (i : Int)
    risk_score := none
    fraud_reason := none
    analyzed_at := none }

/-- A table of exactly `n` failed logins for subject 1, all inside the
window `[200, 500)`. -/
def failDb (n : Nat) : List MCPAuthEvent := (List.range n).map failRow

/-- An event for subject 1 at instant 500 with no IP and no user agent. -/
def plainEvent : AuthEventIn :=
  { user_id := 1
    username := "u"
    event_type := "login_failure"
    ip_address := none
    user_agent := none
    timestamp := some 500 }

/-! The claimed scoring formula, transcribed from the specification's words
(tiered additions over the two half-open-window counts, the two
change-based additions, then a clamp to `[0, 1]`).  It is compared with the
source-derived `rule_based_core` in the C2 theorem. -/

/-- Claimed tier for the failed-login count `F`: `F≥11: +0.7`,
`F∈[6,10]: +0.5`, `F∈[3,5]: +0.3`, else `+0`. -/
def claimedTierF (F : Nat) : ℚ :=
  if F ≥ 11 then (7:ℚ)/10
  else if 6 ≤ F ∧ F ≤ 10 then (5:ℚ)/10
  else if 3 ≤ F ∧ F ≤ 5 then (3:ℚ)/10
  else 0

/-- Claimed tier for the failed-2FA count `T2`: `T2≥11: +0.8`,
`T2∈[6,10]: +0.6`, `T2∈[3,5]: +0.4`, else `+0`. -/
def claimedTier2fa (T2 : Nat) : ℚ :=
  if T2 ≥ 11 then (8:ℚ)/10
  else if 6 ≤ T2 ∧ T2 ≤ 10 then (6:ℚ)/10
  else if 3 ≤ T2 ∧ T2 ≤ 5 then (4:ℚ)/10
  else 0

/-- The claimed risk score: clamp to `[0,1]` of the sum of the two tiered
additions, `+0.2` for a present IP differing from the most recent
successful login's, and `+0.1` for a present client signature differing
from the most recent successful login's. -/
def claimedScore (db : List MCPAuthEvent) (user_id : Int)
    (ip ua : Option String) (t : Int) : ℚ :=
  let F := count_recent_events db user_id "login_failure" (t - 300) t
  let T2 := count_recent_events db user_id "2fa_failure" (t - 300) t
  let ipAdd : ℚ :=
    match ip with
    | some s => if s ≠ "" ∧ check_ip_change db user_id s t then (2:ℚ)/10 else 0
    | none => 0
  let uaAdd : ℚ :=
    match ua with
    | some s => if s ≠ "" ∧ check_user_agent_change db user_id s t then (1:ℚ)/10 else 0
    | none => 0
  max 0 (min 1 (claimedTierF F + claimedTier2fa T2 + ipAdd + uaAdd))

lemma rule_failed_logins_fst (n : Nat) :
    (rule_failed_logins n).1 = claimedTierF n := by
  unfold rule_failed_logins claimedTierF
  by_cases h11 : 11 ≤ n
  · simp [ge_iff_le, h11]
  · by_cases h6 : 6 ≤ n
    · have h10 : n ≤ 10 := by omega
      simp [ge_iff_le, h11, h6, h10]
    · by_cases h3 : 3 ≤ n
      · have h5 : n ≤ 5 := by omega
        simp [ge_iff_le, h11, h6, h3, h5]
      · simp [ge_iff_le, h11, h6, h3]

lemma rule_failed_2fa_fst (n : Nat) :
    (rule_failed_2fa n).1 = claimedTier2fa n := by
  unfold rule_failed_2fa claimedTier2fa
  by_cases h11 : 11 ≤ n
  · simp [ge_iff_le, h11]
  · by_cases h6 : 6 ≤ n
    · have h10 : n ≤ 10 := by omega
      simp [ge_iff_le, h11, h6, h10]
    · by_cases h3 : 3 ≤ n
      · have h5 : n ≤ 5 := by omega
        simp [ge_iff_le, h11, h6, h3, h5]
      · simp [ge_iff_le, h11, h6, h3]

lemma rule_ip_change_fst (db : List MCPAuthEvent) (uid : Int)
    (ip : Option String) (t : Int) :
    (rule_ip_change db uid ip t).1 =
      (match ip with
       | some s => if s ≠ "" ∧ check_ip_change db uid s t then (2:ℚ)/10 else 0
       | none => 0) := by
  cases ip with
  | none => rfl
  | some s =>
    unfold rule_ip_change
    by_cases h1 : s = ""
    · simp [h1]
    · by_cases h2 : check_ip_change db uid s t
      · simp [h1, h2]
      · simp [h1, h2]

lemma rule_ua_change_fst (db : List MCPAuthEvent) (uid : Int)
    (ua : Option String) (t : Int) :
    (rule_ua_change db uid ua t).1 =
      (match ua with
       | some s => if s ≠ "" ∧ check_user_agent_change db uid s t then (1:ℚ)/10 else 0
       | none => 0) := by
  cases ua with
  | none => rfl
  | some s =>
    unfold rule_ua_change
    by_cases h1 : s = ""
    · simp [h1]
    · by_cases h2 : check_user_agent_change db uid s t
      · simp [h1, h2]
      · simp [h1, h2]

lemma rule_failed_logins_fst_nonneg (n : Nat) : 0 ≤ (rule_failed_logins n).1 := by
  unfold rule_failed_logins
  repeat' split
  all_goals norm_num

lemma rule_failed_2fa_fst_nonneg (n : Nat) : 0 ≤ (rule_failed_2fa n).1 := by
  unfold rule_failed_2fa
  repeat' split
  all_goals norm_num

lemma rule_ip_change_fst_nonneg (db : List MCPAuthEvent) (uid : Int)
    (ip : Option String) (t : Int) : 0 ≤ (rule_ip_change db uid ip t).1 := by
  unfold rule_ip_change
  repeat' split
  all_goals norm_num

lemma rule_ua_change_fst_nonneg (db : List MCPAuthEvent) (uid : Int)
    (ua : Option String) (t : Int) : 0 ≤ (rule_ua_change db uid ua t).1 := by
  unfold rule_ua_change
  repeat' split
  all_goals norm_num

/-- The score computed by the rule engine equals the claimed clamped sum. -/
lemma rule_based_core_risk (threshold : ℚ) (event : AuthEventIn)
    (db : List MCPAuthEvent) (t : Int) :
    (rule_based_core threshold event db t).risk_score =
      claimedScore db event.user_id event.ip_address event.user_agent t := by
  unfold rule_based_core claimedScore
  dsimp only
  rw [rule_failed_logins_fst, rule_failed_2fa_fst, rule_ip_change_fst, rule_ua_change_fst]
  set x : ℚ :=
    claimedTierF (count_recent_events db event.user_id "login_failure" (t - 300) t) +
      claimedTier2fa (count_recent_events db event.user_id "2fa_failure" (t - 300) t) +
      (match event.ip_address with
       | some s => if s ≠ "" ∧ check_ip_change db event.user_id s t then (2:ℚ)/10 else 0
       | none => 0) +
      (match event.user_agent with
       | some s => if s ≠ "" ∧ check_user_agent_change db event.user_id s t then (1:ℚ)/10 else 0
       | none => 0) with hx
  have hx0 : 0 ≤ x := by
    rw [hx]
    have a1 := rule_failed_logins_fst_nonneg
      (count_recent_events db event.user_id "login_failure" (t - 300) t)
    have a2 := rule_failed_2fa_fst_nonneg
      (count_recent_events db event.user_id "2fa_failure" (t - 300) t)
    have a3 := rule_ip_change_fst_nonneg db event.user_id event.ip_address t
    have a4 := rule_ua_change_fst_nonneg db event.user_id event.user_agent t
    rw [rule_failed_logins_fst] at a1
    rw [rule_failed_2fa_fst] at a2
    rw [rule_ip_change_fst] at a3
    rw [rule_ua_change_fst] at a4
    positivity
  rw [min_comm x 1, max_eq_right (le_min (by norm_num) hx0)]

/-- The notification flag computed by the rule engine is the comparison of
its own risk score against the threshold. -/
lemma rule_based_core_email (threshold : ℚ) (event : AuthEventIn)
    (db : List MCPAuthEvent) (t : Int) :
    (rule_based_core threshold event db t).email_notification =
      decide ((rule_based_core threshold event db t).risk_score ≥ threshold) := rfl

/-- For an event with no IP and no user agent only the two count tiers
contribute. -/
lemma rule_based_core_plain (db : List MCPAuthEvent) (t : Int) :
    (rule_based_core ((7:ℚ)/10) plainEvent db t).risk_score =
      max 0 (min 1
        (claimedTierF (count_recent_events db 1 "login_failure" (t - 300) t) +
         claimedTier2fa (count_recent_events db 1 "2fa_failure" (t - 300) t))) := by
  rw [rule_based_core_risk]
  unfold claimedScore
  dsimp only
  norm_num [plainEvent]

/-- C2: for every event and database state the rule-based risk score is the
clamp to [0,1] of the sum of the tiered failed-login addition, the tiered
failed-2FA addition, the 0.2 IP-change addition and the 0.1
signature-change addition (all over the half-open 5-minute windows); and
for exactly 3, 5, 6, 10 and 11 prior failed logins with no other signal the
scores are 0.3, 0.3, 0.5, 0.5 and 0.7. -/
theorem rule_based_score_formula :
    (∀ (threshold : ℚ) (event : AuthEventIn) (db : List MCPAuthEvent) (t : Int)
      (a : FraudAssessment),
      rule_based_analysis threshold event db = some a →
      event.timestamp = some t →
      a.risk_score = claimedScore db event.user_id event.ip_address event.user_agent t) ∧
    (rule_based_core ((7:ℚ)/10) plainEvent (failDb 3) 500).risk_score = (3:ℚ)/10 ∧
    (rule_based_core ((7:ℚ)/10) plainEvent (failDb 5) 500).risk_score = (3:ℚ)/10 ∧
    (rule_based_core ((7:ℚ)/10) plainEvent (failDb 6) 500).risk_score = (5:ℚ)/10 ∧
    (rule_based_core ((7:ℚ)/10) plainEvent (failDb 10) 500).risk_score = (5:ℚ)/10 ∧
    (rule_based_core ((7:ℚ)/10) plainEvent (failDb 11) 500).risk_score = (7:ℚ)/10 := by
  refine ⟨?_, ?_, ?_, ?_, ?_, ?_⟩
  · intro threshold event db t a h ht
    unfold rule_based_analysis at h
    rw [ht] at h
    have ha : a = rule_based_core threshold event db t := by
      exact (Option.some.injEq _ _).mp h.symm
    rw [ha]
    exact rule_based_core_risk threshold event db t
  · have h1 : count_recent_events (failDb 3) 1 "login_failure" 200 500 = 3 := by decide
    have h2 : count_recent_events (failDb 3) 1 "2fa_failure" 200 500 = 0 := by decide
    rw [rule_based_core_plain]
    norm_num [h1, h2, claimedTierF, claimedTier2fa]
  · have h1 : count_recent_events (failDb 5) 1 "login_failure" 200 500 = 5 := by decide
    have h2 : count_recent_events (failDb 5) 1 "2fa_failure" 200 500 = 0 := by decide
    rw [rule_based_core_plain]
    norm_num [h1, h2, claimedTierF, claimedTier2fa]
  · have h1 : count_recent_events (failDb 6) 1 "login_failure" 200 500 = 6 := by decide
    have h2 : count_recent_events (failDb 6) 1 "2fa_failure" 200 500 = 0 := by decide
    rw [rule_based_core_plain]
    norm_num [h1, h2, claimedTierF, claimedTier2fa]
  · have h1 : count_recent_events (failDb 10) 1 "login_failure" 200 500 = 10 := by decide
    have h2 : count_recent_events (failDb 10) 1 "2fa_failure" 200 500 = 0 := by decide
    rw [rule_based_core_plain]
    norm_num [h1, h2, claimedTierF, claimedTier2fa]
  · have h1 : count_recent_events (failDb 11) 1 "login_failure" 200 500 = 11 := by decide
    have h2 : count_recent_events (failDb 11) 1 "2fa_failure" 200 500 = 0 := by decide
    rw [rule_based_core_plain]
    norm_num [h1, h2, claimedTierF, claimedTier2fa]

/-- Witness for C2: the formula instantiated at a concrete event, database
and parse instant. -/
theorem rule_based_score_formula_witness :
    rule_based_analysis ((7:ℚ)/10) plainEvent (failDb 3) =
      some (rule_based_core ((7:ℚ)/10) plainEvent (failDb 3) 500) ∧
    plainEvent.timestamp = some 500 ∧
    (rule_based_core ((7:ℚ)/10) plainEvent (failDb 3) 500).risk_score =
      claimedScore (failDb 3) plainEvent.user_id plainEvent.ip_address
        plainEvent.user_agent 500 :=
  ⟨rfl, rfl, rule_based_score_formula.1 _ plainEvent _ 500 _ rfl rfl⟩

/-- A detector configured with the default threshold and BAML disabled. -/
def cfgRuleBased : DetectorCfg :=
  { fraud_threshold := (7:ℚ)/10, baml_enabled := false, baml_available := false }

/-- A detector with BAML enabled whose client reports itself unavailable. -/
def cfgAssistedDown : DetectorCfg :=
  { fraud_threshold := (7:ℚ)/10, baml_enabled := true, baml_available := false }

/-- An incoming event whose timestamp string does not parse. -/
def badEvent : AuthEventIn :=
  { user_id := 1
    username := "u"
    event_type := "login_failure"
    ip_address := none
    user_agent := none
    timestamp := none }

/-- C7: when the external assessor is configured but reports itself
unavailable, errors, returns nothing or times out, `analyze_event` returns
exactly the assessment the rule-based path produces for the same event and
state. -/
theorem analyze_event_fallback_identity (cfg : DetectorCfg)
    (baml_outcome : Option FraudAssessment) (event : AuthEventIn)
    (db : List MCPAuthEvent) (a : FraudAssessment)
    (hconf : cfg.baml_enabled = true)
    (hfail : cfg.baml_available = false ∨ baml_outcome = none)
    (hrule : rule_based_analysis cfg.fraud_threshold event db = some a) :
    analyze_event cfg baml_outcome event db = a := by
  unfold analyze_event
  dsimp only
  rcases hfail with h | h
  · rw [h]
    simp [hrule]
  · rw [h]
    simp [hrule]

/-- Witness for C7: a BAML-enabled but unavailable detector falls back to
the rule path's assessment on a concrete event and state. -/
theorem analyze_event_fallback_identity_witness :
    cfgAssistedDown.baml_enabled = true ∧
    (cfgAssistedDown.baml_available = false ∨
      (none : Option FraudAssessment) = none) ∧
    rule_based_analysis cfgAssistedDown.fraud_threshold plainEvent [] =
      some (rule_based_core cfgAssistedDown.fraud_threshold plainEvent [] 500) ∧
    analyze_event cfgAssistedDown none plainEvent [] =
      rule_based_core cfgAssistedDown.fraud_threshold plainEvent [] 500 :=
  ⟨rfl, Or.inl rfl, rfl,
    analyze_event_fallback_identity cfgAssistedDown none plainEvent [] _
      rfl (Or.inl rfl) rfl⟩

/-- C10: when the assisted path yields nothing and the rule path raises
(unparseable timestamp), `analyze_event` returns the fixed default
assessment: score 0, flag off, confidence 0, reason "Analysis failed -
defaulting to no risk". -/
theorem analyze_event_error_default (cfg : DetectorCfg)
    (baml_outcome : Option FraudAssessment) (event : AuthEventIn)
    (db : List MCPAuthEvent)
    (hbaml : (if cfg.baml_enabled && cfg.baml_available then baml_outcome else none) =
      (none : Option FraudAssessment))
    (ht : event.timestamp = none) :
    analyze_event cfg baml_outcome event db = defaultAssessment ∧
    defaultAssessment.risk_score = 0 ∧
    defaultAssessment.email_notification = false ∧
    defaultAssessment.confidence = 0 ∧
    defaultAssessment.reason = "Analysis failed - defaulting to no risk" := by
  refine ⟨?_, rfl, rfl, rfl, rfl⟩
  unfold analyze_event
  dsimp only
  rw [hbaml]
  unfold rule_based_analysis
  rw [ht]

/-- Witness for C10: a rule-only detector on an event with an unparseable
timestamp returns the default assessment. -/
theorem analyze_event_error_default_witness :
    (if cfgRuleBased.baml_enabled && cfgRuleBased.baml_available then
      (none : Option FraudAssessment) else none) = none ∧
    badEvent.timestamp = none ∧
    analyze_event cfgRuleBased none badEvent [] = defaultAssessment :=
  ⟨rfl, rfl, (analyze_event_error_default cfgRuleBased none badEvent [] rfl rfl).1⟩

/-- C8: when the fraud-analysis/assessment-attach step fails after the
durable append, ingestion still answers accepted with the event's id, the
appended row is not rolled back, and it remains stored with a null risk
score. -/
theorem ingest_attach_failure_preserves_event (cfg : DetectorCfg)
    (baml_outcome : Option FraudAssessment) (event : AuthEventIn)
    (new_id : String) (now : Int) (st : ServerState) (t : Int)
    (ht : event.timestamp = some t) :
    (ingest_event cfg baml_outcome event new_id now false st).1 =
      Except.ok
        { message := "Event accepted for processing"
          event_id := new_id
          status := "accepted" } ∧
    (ingest_event cfg baml_outcome event new_id now false st).2.events =
      st.events ++
        [{ id := new_id
           user_id := event.user_id
           username := event.username
           event_type := event.event_type
           ip_address := event.ip_address
           user_agent := event.user_agent
           timestamp := t
           risk_score := none
           fraud_reason := none
           analyzed_at := none }] ∧
    (ingest_event cfg baml_outcome event new_id now false st).2.alerts = st.alerts := by
  unfold ingest_event
  rw [ht]
  exact ⟨rfl, rfl, rfl⟩

/-- Witness for C8: a concrete failed attach leaves the appended row
unassessed and the response accepted. -/
theorem ingest_attach_failure_preserves_event_witness :
    plainEvent.timestamp = some 500 ∧
    (ingest_event cfgRuleBased none plainEvent "ev-1" 600 false ⟨[], []⟩).1 =
      Except.ok
        { message := "Event accepted for processing"
          event_id := "ev-1"
          status := "accepted" } ∧
    (ingest_event cfgRuleBased none plainEvent "ev-1" 600 false ⟨[], []⟩).2.events =
      [{ id := "ev-1"
         user_id := 1
         username := "u"
         event_type := "login_failure"
         ip_address := none
         user_agent := none
         timestamp := 500
         risk_score := none
         fraud_reason := none
         analyzed_at := none }] := by
  refine ⟨rfl, ?_, ?_⟩
  · exact (ingest_attach_failure_preserves_event cfgRuleBased none plainEvent
      "ev-1" 600 ⟨[], []⟩ 500 rfl).1
  · exact (ingest_attach_failure_preserves_event cfgRuleBased none plainEvent
      "ev-1" 600 ⟨[], []⟩ 500 rfl).2.1

/-- C6 (refuting the claim on the listing endpoint): with the default
threshold 0.7, an event scored exactly at the threshold has the
notification flag set at scoring time (`>=`), yet the fraud-assessment
listing endpoint reports `email_notification` as false for the same stored
score, because it recomputes the flag with a strict `>`. -/
theorem email_flag_threshold_divergence :
    (rule_based_core defaultSettings.FRAUD_THRESHOLD plainEvent (failDb 11) 500).risk_score =
      defaultSettings.FRAUD_THRESHOLD ∧
    (rule_based_core defaultSettings.FRAUD_THRESHOLD plainEvent (failDb 11) 500).email_notification =
      true ∧
    assessment_out_email_notification defaultSettings.FRAUD_THRESHOLD
      (some defaultSettings.FRAUD_THRESHOLD) = false := by
  have h1 : count_recent_events (failDb 11) 1 "login_failure" 200 500 = 11 := by decide
  have h2 : count_recent_events (failDb 11) 1 "2fa_failure" 200 500 = 0 := by decide
  have hs : (rule_based_core ((7:ℚ)/10) plainEvent (failDb 11) 500).risk_score = (7:ℚ)/10 := by
    rw [rule_based_core_plain]
    norm_num [h1, h2, claimedTierF, claimedTier2fa]
  refine ⟨hs, ?_, ?_⟩
  · show (rule_based_core ((7:ℚ)/10) plainEvent (failDb 11) 500).email_notification = true
    rw [rule_based_core_email, hs]
    simp
  · show assessment_out_email_notification ((7:ℚ)/10) (some ((7:ℚ)/10)) = false
    unfold assessment_out_email_notification
    norm_num

/-- The stored row the C1 scenario ingestion appends before analysis. -/
def c1Stored : MCPAuthEvent :=
  { id := "ev-new"
    user_id := 1
    username := "u"
    event_type := "login_failure"
    ip_address := none
    user_agent := none
    timestamp := 500
    risk_score := none
    fraud_reason := none
    analyzed_at := none }

/-- C1 (refuting the claim): the ingestion flow never touches the alert
table at all — for every configuration, event and starting state the alert
table after `ingest_event` is the starting alert table (so `create_alert`,
which always changes or extends the table, is never invoked) — even though
on a concrete brute-force state the ingested event's stored risk score is
exactly the default threshold 0.7, a qualifying assessment. -/
theorem ingest_never_invokes_alert_consolidator :
    (∀ (cfg : DetectorCfg) (baml_outcome : Option FraudAssessment)
        (event : AuthEventIn) (new_id : String) (now : Int) (attach_ok : Bool)
        (st : ServerState),
      (ingest_event cfg baml_outcome event new_id now attach_ok st).2.alerts = st.alerts) ∧
    ((ingest_event cfgRuleBased none plainEvent "ev-new" 600 true
        ⟨failDb 11, []⟩).2.events.getLast?.map (fun e => e.risk_score)) =
      some (some ((7:ℚ)/10)) ∧
    ((7:ℚ)/10 ≥ cfgRuleBased.fraud_threshold) := by
  refine ⟨?_, ?_, ?_⟩
  · intro cfg baml_outcome event new_id now attach_ok st
    unfold ingest_event
    cases event.timestamp <;> cases attach_ok <;> rfl
  · have hA : (analyze_event cfgRuleBased none plainEvent (failDb 11 ++ [c1Stored])).risk_score =
        (7:ℚ)/10 := by
      show (rule_based_core ((7:ℚ)/10) plainEvent (failDb 11 ++ [c1Stored]) 500).risk_score =
        (7:ℚ)/10
      have h1 : count_recent_events (failDb 11 ++ [c1Stored]) 1 "login_failure" 200 500 = 11 := by
        decide
      have h2 : count_recent_events (failDb 11 ++ [c1Stored]) 1 "2fa_failure" 200 500 = 0 := by
        decide
      rw [rule_based_core_plain]
      norm_num [h1, h2, claimedTierF, claimedTier2fa]
    show (((failDb 11 ++ [c1Stored]).map (fun e =>
        if e.id == "ev-new" then
          { e with
            risk_score := some (analyze_event cfgRuleBased none plainEvent
              (failDb 11 ++ [c1Stored])).risk_score
            fraud_reason := some (analyze_event cfgRuleBased none plainEvent
              (failDb 11 ++ [c1Stored])).reason
            analyzed_at := some 600 }
        else e)).getLast?.map (fun e => e.risk_score)) = some (some ((7:ℚ)/10))
    have hid : (c1Stored.id == "ev-new") = true := by decide
    rw [List.map_append]
    simp only [List.map_cons, List.map_nil]
    rw [List.getLast?_concat, if_pos hid]
    simp [hA]
  · norm_num [cfgRuleBased]

/-- C3 (refuting the claim): calling `create_alert` twice with the same
`(subject, event_id, assessment)` does not leave one alert with the event
attached once — the second call falls through the merge guard (the event id
is already attached) and inserts a second alert that also carries the same
event id, reporting it as not consolidated. -/
theorem create_alert_retry_creates_duplicate :
    (create_alert defaultSettings 1060 "B"
      (create_alert defaultSettings 1000 "A" [] 1 "u" "e1" ((8:ℚ)/10) "r").1
      1 "u" "e1" ((8:ℚ)/10) "r").2.2 = false ∧
    (create_alert defaultSettings 1060 "B"
      (create_alert defaultSettings 1000 "A" [] 1 "u" "e1" ((8:ℚ)/10) "r").1
      1 "u" "e1" ((8:ℚ)/10) "r").1.map (fun a => a.event_ids) = [["e1"], ["e1"]] ∧
    ((create_alert defaultSettings 1060 "B"
      (create_alert defaultSettings 1000 "A" [] 1 "u" "e1" ((8:ℚ)/10) "r").1
      1 "u" "e1" ((8:ℚ)/10) "r").1.filter
        (fun a => a.status == "open" && a.user_id == 1)).length = 2 := by
  refine ⟨by decide, by decide, by decide⟩

/-- An open alert at the configured attachment cap (10 event ids),
created 40 seconds ago relative to the `now` used in the C4 statements. -/
def fullAlert : MCPAlert :=
  { id := "A0"
    user_id := 1
    username := "u"
    event_ids := ["1", "2", "3", "4", "5", "6", "7", "8", "9", "10"]
    risk_score := (9:ℚ)/10
    reason := "r0"
    status := "open"
    created_at := 960
    updated_at := 960 }

/-- C4 counterexample: with an open in-window alert at the attachment cap,
a further qualifying event is not reported as merged — a second alert is
created for it and the call reports `(new_id, False)`. -/
theorem create_alert_cap_counterexample :
    ([fullAlert].find? (openAlertInWindow defaultSettings 1000 1)).isSome = true ∧
    fullAlert.event_ids.length = defaultSettings.MAX_EVENTS_PER_ALERT ∧
    (create_alert defaultSettings 1000 "N" [fullAlert] 1 "u" "e11" ((8:ℚ)/10) "r").2.2 = false ∧
    (create_alert defaultSettings 1000 "N" [fullAlert] 1 "u" "e11" ((8:ℚ)/10) "r").2.1 = "N" ∧
    (create_alert defaultSettings 1000 "N" [fullAlert] 1 "u" "e11" ((8:ℚ)/10) "r").1.map
      (fun a => a.event_ids) =
      [["1", "2", "3", "4", "5", "6", "7", "8", "9", "10"], ["e11"]] := by
  refine ⟨by decide, by decide, by decide, by decide, by decide⟩

/-- C4 as amended: when the open in-window alert found for the subject has
reached `MAX_EVENTS_PER_ALERT`, the event id is not appended to it;
instead a fresh alert seeded with the event is inserted and the call
reports it as not consolidated. -/
theorem create_alert_cap_creates_new_alert (s : Settings) (now : Int)
    (new_id : String) (alerts : List MCPAlert) (uid : Int) (un eid : String)
    (risk : ℚ) (reason : String) (ex : MCPAlert)
    (hfind : alerts.find? (openAlertInWindow s now uid) = some ex)
    (hcap : s.MAX_EVENTS_PER_ALERT ≤ ex.event_ids.length) :
    create_alert s now new_id alerts uid un eid risk reason =
      (alerts ++ [newAlert now new_id uid un eid risk reason], new_id, false) := by
  unfold create_alert
  rw [hfind]
  dsimp only
  have hcond : (!(ex.event_ids.contains eid) &&
      decide (ex.event_ids.length < s.MAX_EVENTS_PER_ALERT)) = false := by
    have hlt : decide (ex.event_ids.length < s.MAX_EVENTS_PER_ALERT) = false := by
      simp only [decide_eq_false_iff_not]
      omega
    rw [hlt, Bool.and_false]
  rw [if_neg (by rw [hcond]; exact Bool.false_ne_true)]

/-- Witness for C4's amended statement at a concrete cap-full alert. -/
theorem create_alert_cap_creates_new_alert_witness :
    [fullAlert].find? (openAlertInWindow defaultSettings 1000 1) = some fullAlert ∧
    defaultSettings.MAX_EVENTS_PER_ALERT ≤ fullAlert.event_ids.length ∧
    create_alert defaultSettings 1000 "N2" [fullAlert] 1 "u" "e12" ((8:ℚ)/10) "r" =
      ([fullAlert] ++ [newAlert 1000 "N2" 1 "u" "e12" ((8:ℚ)/10) "r"], "N2", false) :=
  ⟨rfl, by decide,
    create_alert_cap_creates_new_alert defaultSettings 1000 "N2" [fullAlert]
      1 "u" "e12" ((8:ℚ)/10) "r" fullAlert rfl (by decide)⟩

/-- An open in-window alert that already carries the event id `"x1"`. -/
def dupAlert : MCPAlert :=
  { id := "D0"
    user_id := 2
    username := "v"
    event_ids := ["x1"]
    risk_score := (8:ℚ)/10
    reason := "rr"
    status := "open"
    created_at := 900
    updated_at := 900 }

/-- C5 counterexample: an open alert for the subject inside the
consolidation window exists, yet the call does not merge — the event id is
already attached, so the guard fails and a second alert is inserted. -/
theorem create_alert_merge_iff_counterexample :
    ([dupAlert].find? (openAlertInWindow defaultSettings 1000 2)).isSome = true ∧
    (create_alert defaultSettings 1000 "D1" [dupAlert] 2 "v" "x1" ((8:ℚ)/10) "rr").2.2 = false ∧
    (create_alert defaultSettings 1000 "D1" [dupAlert] 2 "v" "x1" ((8:ℚ)/10) "rr").1.length = 2 := by
  refine ⟨by decide, by decide, by decide⟩

/-- C5 as amended: a call merges exactly when the lookup finds an open
alert of the subject created inside the consolidation window measured from
now AND the event id is not already attached AND the attachment count is
below the configured maximum.  Merging appends the event id and raises the
risk score to the maximum of old and new, so two qualifying events 120
seconds apart yield a single alert holding both ids with the maximal
score, while a second event more than the 5-minute window after the only
alert's creation yields a second, separate alert. -/
theorem create_alert_merge_exactly_when :
    (∀ (s : Settings) (now : Int) (new_id : String) (alerts : List MCPAlert)
        (uid : Int) (un eid : String) (risk : ℚ) (reason : String),
      ((create_alert s now new_id alerts uid un eid risk reason).2.2 = true) ↔
        ∃ ex, alerts.find? (openAlertInWindow s now uid) = some ex ∧
          ex.event_ids.contains eid = false ∧
          ex.event_ids.length < s.MAX_EVENTS_PER_ALERT) ∧
    (∀ (uid : Int) (un e1 e2 r1 r2 idA idB : String) (s1 s2 : ℚ) (t1 t2 : Int),
      (e1 == e2) = false → t2 - t1 ≤ 300 →
      (create_alert defaultSettings t2 idB
          (create_alert defaultSettings t1 idA [] uid un e1 s1 r1).1
          uid un e2 s2 r2).2.2 = true ∧
      (create_alert defaultSettings t2 idB
          (create_alert defaultSettings t1 idA [] uid un e1 s1 r1).1
          uid un e2 s2 r2).2.1 = idA ∧
      (create_alert defaultSettings t2 idB
          (create_alert defaultSettings t1 idA [] uid un e1 s1 r1).1
          uid un e2 s2 r2).1.map (fun a => a.event_ids) = [[e1, e2]] ∧
      (create_alert defaultSettings t2 idB
          (create_alert defaultSettings t1 idA [] uid un e1 s1 r1).1
          uid un e2 s2 r2).1.map (fun a => a.risk_score) = [max s1 s2]) ∧
    (∀ (uid : Int) (un e1 e2 r1 r2 idA idB : String) (s1 s2 : ℚ) (t1 t2 : Int),
      300 < t2 - t1 →
      (create_alert defaultSettings t2 idB
          (create_alert defaultSettings t1 idA [] uid un e1 s1 r1).1
          uid un e2 s2 r2).2.2 = false ∧
      (create_alert defaultSettings t2 idB
          (create_alert defaultSettings t1 idA [] uid un e1 s1 r1).1
          uid un e2 s2 r2).1.map (fun a => a.created_at) = [t1, t2]) := by
  refine ⟨?_, ?_, ?_⟩
  · intro s now new_id alerts uid un eid risk reason
    unfold create_alert
    cases hfind : alerts.find? (openAlertInWindow s now uid) with
    | none =>
      dsimp only
      simp
    | some ex =>
      dsimp only
      by_cases hc : (!(ex.event_ids.contains eid) &&
          decide (ex.event_ids.length < s.MAX_EVENTS_PER_ALERT)) = true
      · rw [if_pos hc]
        simp only [Bool.and_eq_true, Bool.not_eq_true', decide_eq_true_eq] at hc
        constructor
        · intro _
          exact ⟨ex, rfl, hc.1, hc.2⟩
        · intro _
          rfl
      · rw [if_neg hc]
        constructor
        · intro habs
          exact absurd habs Bool.false_ne_true
        · rintro ⟨ex2, heq, hnc, hlt⟩
          have hex : ex = ex2 := by
            injection heq
          subst hex
          exact absurd (by rw [hnc]; simp [hlt] : (!(ex.event_ids.contains eid) &&
            decide (ex.event_ids.length < s.MAX_EVENTS_PER_ALERT)) = true) hc
  · intro uid un e1 e2 r1 r2 idA idB s1 s2 t1 t2 hne hwin
    have h1 : (create_alert defaultSettings t1 idA [] uid un e1 s1 r1).1 =
        [newAlert t1 idA uid un e1 s1 r1] := rfl
    rw [h1]
    have hp : openAlertInWindow defaultSettings t2 uid
        (newAlert t1 idA uid un e1 s1 r1) = true := by
      unfold openAlertInWindow newAlert
      have hwm : defaultSettings.ALERT_CONSOLIDATION_WINDOW_MINUTES = 5 := rfl
      have hle : t2 - defaultSettings.ALERT_CONSOLIDATION_WINDOW_MINUTES * 60 ≤ t1 := by
        rw [hwm]
        omega
      simp [hle]
    have hcont : (newAlert t1 idA uid un e1 s1 r1).event_ids.contains e2 = false := by
      have h2 : (e2 == e1) = false := by
        rw [beq_eq_false_iff_ne] at hne ⊢
        exact hne.symm
      simp [newAlert, List.contains, List.elem, h2]
    unfold create_alert
    rw [List.find?_cons_of_pos _ hp]
    dsimp only
    have hcond : (!( (newAlert t1 idA uid un e1 s1 r1).event_ids.contains e2) &&
        decide ((newAlert t1 idA uid un e1 s1 r1).event_ids.length <
          defaultSettings.MAX_EVENTS_PER_ALERT)) = true := by
      rw [hcont]
      simp [newAlert, defaultSettings]
    rw [if_pos hcond]
    refine ⟨rfl, rfl, ?_, ?_⟩
    · simp [newAlert]
    · simp [newAlert]
  · intro uid un e1 e2 r1 r2 idA idB s1 s2 t1 t2 hgap
    have h1 : (create_alert defaultSettings t1 idA [] uid un e1 s1 r1).1 =
        [newAlert t1 idA uid un e1 s1 r1] := rfl
    rw [h1]
    have hp : openAlertInWindow defaultSettings t2 uid
        (newAlert t1 idA uid un e1 s1 r1) = false := by
      unfold openAlertInWindow newAlert
      have hwm : defaultSettings.ALERT_CONSOLIDATION_WINDOW_MINUTES = 5 := rfl
      have hno : ¬ (t2 - defaultSettings.ALERT_CONSOLIDATION_WINDOW_MINUTES * 60 ≤ t1) := by
        rw [hwm]
        omega
      simp [hno]
    unfold create_alert
    rw [List.find?_cons_of_neg _ (by rw [hp]; exact Bool.false_ne_true)]
    refine ⟨rfl, ?_⟩
    simp [newAlert]

/-- Witness for C5's amended statement: two qualifying events for the same
subject 120 seconds apart are consolidated into the first alert with both
event ids attached. -/
theorem create_alert_merge_exactly_when_witness :
    ("p1" == "p2") = false ∧ ((120:Int) - 0 ≤ 300) ∧
    (create_alert defaultSettings 120 "BB"
        (create_alert defaultSettings 0 "AA" [] 3 "w" "p1" ((8:ℚ)/10) "ra").1
        3 "w" "p2" ((9:ℚ)/10) "rb").2.2 = true ∧
    (create_alert defaultSettings 120 "BB"
        (create_alert defaultSettings 0 "AA" [] 3 "w" "p1" ((8:ℚ)/10) "ra").1
        3 "w" "p2" ((9:ℚ)/10) "rb").2.1 = "AA" ∧
    (create_alert defaultSettings 120 "BB"
        (create_alert defaultSettings 0 "AA" [] 3 "w" "p1" ((8:ℚ)/10) "ra").1
        3 "w" "p2" ((9:ℚ)/10) "rb").1.map (fun a => a.event_ids) = [["p1", "p2"]] := by
  have h := create_alert_merge_exactly_when.2.1 3 "w" "p1" "p2" "ra" "rb" "AA" "BB"
    ((8:ℚ)/10) ((9:ℚ)/10) 0 120 (by decide) (by norm_num)
  exact ⟨by decide, by norm_num, h.1, h.2.1, h.2.2.1⟩

/-- A stored event whose timestamp is exactly the `end` bound used in the
C9 statements. -/
def boundaryEvent : MCPAuthEvent :=
  { id := "b1"
    user_id := 1
    username := "u"
    event_type := "login_success"
    ip_address := none
    user_agent := none
    timestamp := 100
    risk_score := none
    fraud_reason := none
    analyzed_at := none }

/-- C9 counterexample: an event whose timestamp equals the `end` bound is
counted by the listing query (the code filters with `timestamp <= end`),
whereas the claimed half-open bound `t < end` would exclude it. -/
theorem get_events_end_inclusive_counterexample :
    get_events_total [boundaryEvent] none none (some 0) (some 100) = 1 ∧
    boundaryEvent.timestamp = 100 ∧
    ([boundaryEvent].filter (fun e =>
        decide (0 ≤ e.timestamp) && decide (e.timestamp < 100))).length = 0 := by
  refine ⟨by decide, rfl, by decide⟩

/-- C9 as amended: with both bounds supplied the listing's filtered set —
which determines the page and the total count — holds exactly the stored
events satisfying the other conjunctive filters together with the closed
bound `start <= t <= end` (the end bound is inclusive); the total is the
size of that set and every page row comes from it. -/
theorem get_events_range_inclusive :
    (∀ (db : List MCPAuthEvent) (uid : Option Int) (ty : Option String)
        (sd en : Int) (e : MCPAuthEvent),
      e ∈ get_events_filtered db uid ty (some sd) (some en) ↔
        e ∈ db ∧ (∀ u, uid = some u → e.user_id = u) ∧
          (∀ k, ty = some k → e.event_type = k) ∧
          sd ≤ e.timestamp ∧ e.timestamp ≤ en) ∧
    (∀ (db : List MCPAuthEvent) (uid : Option Int) (ty : Option String)
        (sd en : Int),
      get_events_total db uid ty (some sd) (some en) =
        (get_events_filtered db uid ty (some sd) (some en)).length) ∧
    (∀ (db : List MCPAuthEvent) (uid : Option Int) (ty : Option String)
        (sd en : Int) (limit offset : Nat) (e : MCPAuthEvent),
      e ∈ get_events_page db uid ty (some sd) (some en) limit offset →
        e ∈ get_events_filtered db uid ty (some sd) (some en)) := by
  refine ⟨?_, ?_, ?_⟩
  · intro db uid ty sd en e
    unfold get_events_filtered
    rw [List.mem_filter]
    have hmatch : eventMatches uid ty (some sd) (some en) e = true ↔
        ((∀ u, uid = some u → e.user_id = u) ∧
          (∀ k, ty = some k → e.event_type = k) ∧
          sd ≤ e.timestamp ∧ e.timestamp ≤ en) := by
      unfold eventMatches eventFilters
      cases uid <;> cases ty <;>
        simp [List.all_cons, Bool.and_eq_true, decide_eq_true_eq, beq_iff_eq]
    rw [hmatch]
  · intro db uid ty sd en
    rfl
  · intro db uid ty sd en limit offset e h
    unfold get_events_page at h
    have h2 := List.mem_of_mem_take h
    have h3 := List.mem_of_mem_drop h2
    exact List.mem_mergeSort.mp h3

/-- Witness for C9's amended statement: the boundary event is in the
filtered set of its own listing query. -/
theorem get_events_range_inclusive_witness :
    boundaryEvent ∈ get_events_filtered [boundaryEvent] none none (some 0) (some 100) := by
  apply (get_events_range_inclusive.1 [boundaryEvent] none none 0 100 boundaryEvent).mpr
  refine ⟨by simp, ?_, ?_, by decide, by decide⟩
  · intro u h
    exact absurd h (by simp)
  · intro k h
    exact absurd h (by simp)

end MCP
